import Mathlib

/-
  Verification development for the frame-to-frame LiDAR odometry core
  (src/loam_velodyne/LaserOdometry.cpp and src/loam_velodyne/common.h).

  The buffer, flag and counter handling of LaserOdometry::process is embedded
  as an explicit state-passing function over rational scalars; point clouds are
  abstracted to a type parameter, and the parts of the tick that live outside
  the sources under src/ or that are pure floating-point linear algebra
  (the iterative solver, the pose accumulation trigonometry, the PCL and
  nanoflann library calls) are supplied as explicit function parameters whose
  correspondence with the source is recorded in the doc comments.
-/

set_option maxRecDepth 4000

namespace LoamVis

/-- Vector of three rational coordinates, modelling the float 3-vector type
used for positions and velocity hints in LaserOdometry.cpp. -/
structure Vec3 where
  x : ℚ
  y : ℚ
  z : ℚ
deriving DecidableEq

/-- Componentwise scaling of a 3-vector by a scalar, modelling the
vector-times-float product in LaserOdometry.cpp line 318. -/
def scaleVec (c : ℚ) (v : Vec3) : Vec3 := ⟨c * v.x, c * v.y, c * v.z⟩

/-- Componentwise difference of two 3-vectors. -/
def subVec (a b : Vec3) : Vec3 := ⟨a.x - b.x, a.y - b.y, a.z - b.z⟩

/-- The zero 3-vector. -/
def zeroVec : Vec3 := ⟨0, 0, 0⟩

/-- Six-degree-of-freedom pose, modelling the Twist member type of
LaserOdometry (three Euler angles in radians plus a translation).
The Angle wrapper of the source caches sin and cos of a raw radian value;
only the radian value matters for the state-level theorems, so the rotation
components are plain rationals here. -/
structure TwistQ where
  rot_x : ℚ
  rot_y : ℚ
  rot_z : ℚ
  pos : Vec3
deriving DecidableEq

/-- The all-zero pose, value of a default-constructed Twist. -/
def zeroTwist : TwistQ := ⟨0, 0, 0, zeroVec⟩

/-- Configuration of the odometry core, modelling LaserOdometryParams.
Only the fields the embedded claims touch are kept: scanPeriod
(LaserOdometry.cpp line 318) and the export decimation ratio
(line 798, named ioRatio in the source). -/
structure LaserOdometryParams where
  scanPeriod : ℚ
  ioRatioN : ℕ
deriving DecidableEq

/-- State of the odometry core before or after a tick, modelling the data
members of LaserOdometry (constructor, lines 53-80): the six fresh-data
flags, the six per-stream timestamps, the initialization flag, the frame
counter, the incremental and accumulated transforms, the five input clouds,
the two previous-sweep clouds, the input clouds the two KD-trees were last
built over (setInputCloud), and the IMU hint members read by process.
Cloud contents are abstracted to the type parameter C. -/
structure OdomState (C : Type) where
  newCornerPointsSharp : Bool
  newCornerPointsLessSharp : Bool
  newSurfPointsFlat : Bool
  newSurfPointsLessFlat : Bool
  newLaserCloudFullRes : Bool
  newImuTrans : Bool
  timeCornerPointsSharp : ℚ
  timeCornerPointsLessSharp : ℚ
  timeSurfPointsFlat : ℚ
  timeSurfPointsLessFlat : ℚ
  timeLaserCloudFullRes : ℚ
  timeImuTrans : ℚ
  systemInited : Bool
  frameCount : ℕ
  transform : TwistQ
  transformSum : TwistQ
  cornerPointsSharp : C
  cornerPointsLessSharp : C
  surfPointsFlat : C
  surfPointsLessFlat : C
  laserCloudFullRes : C
  lastCornerCloud : C
  lastSurfaceCloud : C
  lastCornerKDTreeCloud : C
  lastSurfaceKDTreeCloud : C
  imuPitchStart : ℚ
  imuRollStart : ℚ
  imuVeloFromStart : Vec3
deriving DecidableEq

/-- Operations on abstract clouds and on the pose that the tick skeleton
delegates to code outside src/ or to floating-point numerics:
size models points.size(); removeNaN models pcl::removeNaNFromPointCloud
(line 330); solveLastCorner models the repeated NaN filtering the solver
loop applies to the previous corner cloud (line 349); accumulate models the
pose accumulation of lines 753-777 (accumulateRotation, rotateZXY and
pluginIMURotation on the IMU members); transformToEnd models the in-place
re-projection of a cloud to sweep end (lines 101-138) under a given
incremental transform. -/
structure CoreModel (C : Type) where
  size : C → ℕ
  removeNaN : C → C
  solveLastCorner : C → C
  accumulate : TwistQ → TwistQ → TwistQ
  transformToEnd : TwistQ → C → C

variable {C : Type}

/-- Input gate of the core, translated from LaserOdometry::hasNewData
(lines 274-283): all six fresh-data flags are set and the timestamp of each
of the other five streams is within 0.005 seconds of the less-flat stream. -/
def hasNewData (st : OdomState C) : Bool :=
  st.newCornerPointsSharp && st.newCornerPointsLessSharp && st.newSurfPointsFlat &&
    st.newSurfPointsLessFlat && st.newLaserCloudFullRes && st.newImuTrans &&
    decide (|st.timeCornerPointsSharp - st.timeSurfPointsLessFlat| < (0.005 : ℚ)) &&
    decide (|st.timeCornerPointsLessSharp - st.timeSurfPointsLessFlat| < (0.005 : ℚ)) &&
    decide (|st.timeSurfPointsFlat - st.timeSurfPointsLessFlat| < (0.005 : ℚ)) &&
    decide (|st.timeLaserCloudFullRes - st.timeSurfPointsLessFlat| < (0.005 : ℚ)) &&
    decide (|st.timeImuTrans - st.timeSurfPointsLessFlat| < (0.005 : ℚ))

/-- Flag reset, translated from LaserOdometry::reset (lines 262-270):
all six fresh-data flags are cleared. -/
def reset (st : OdomState C) : OdomState C :=
  { st with
      newCornerPointsSharp := false,
      newCornerPointsLessSharp := false,
      newSurfPointsFlat := false,
      newSurfPointsLessFlat := false,
      newLaserCloudFullRes := false,
      newImuTrans := false }

/-- The incremental transform at entry of the solver section, translated
from LaserOdometry.cpp line 318: the product of imuVeloFromStart and
scanPeriod is subtracted from the carried-over translation; the rotation
is left untouched. -/
def solverEntryTransform (t : TwistQ) (imuVeloFromStart : Vec3) (scanPeriod : ℚ) : TwistQ :=
  { t with pos := subVec t.pos (scaleVec scanPeriod imuVeloFromStart) }

/-- One tick of the odometry core, translated from LaserOdometry::process
(lines 287-794). The gate and early return mirror lines 289-292; reset is
line 297; the initialization branch mirrors lines 299-311 (buffer swaps,
setInputCloud on both KD-trees, the IMU bias on the accumulated rotation,
and the false return); the non-initialization path mirrors lines 317-318
(frame counter and IMU translation prior), line 325 (the solver section
runs only when the previous corner cloud has more than 10 points and the
previous surface cloud more than 100), lines 326-746 (the solver loop,
whose effect on the incremental transform is the solveLoopTransform
parameter and whose NaN filtering of the sharp input and of the previous
corner cloud is M.removeNaN and M.solveLastCorner), lines 753-777
(M.accumulate), lines 779-783 (re-projection of the less-sharp and
less-flat clouds to sweep end followed by the swap into the previous-sweep
slots), and lines 785-791, where the body of the KD-tree rebuild block is
commented out in the source, so the KD-tree fields are left unchanged;
the tick then returns true (line 793). -/
def processModel (M : CoreModel C) (solveLoopTransform : C → C → C → C → TwistQ → TwistQ)
    (params : LaserOdometryParams) (st0 : OdomState C) : OdomState C × Bool :=
  if hasNewData st0 = false then (st0, false) else
  let st := reset st0
  if st.systemInited = false then
    ({ st with
        cornerPointsLessSharp := st.lastCornerCloud,
        lastCornerCloud := st.cornerPointsLessSharp,
        surfPointsLessFlat := st.lastSurfaceCloud,
        lastSurfaceCloud := st.surfPointsLessFlat,
        lastCornerKDTreeCloud := st.cornerPointsLessSharp,
        lastSurfaceKDTreeCloud := st.surfPointsLessFlat,
        transformSum := { st.transformSum with
          rot_x := st.transformSum.rot_x + st.imuPitchStart,
          rot_z := st.transformSum.rot_z + st.imuRollStart },
        systemInited := true }, false)
  else
    let t1 := solverEntryTransform st.transform st.imuVeloFromStart params.scanPeriod
    let t2 := if 10 < M.size st.lastCornerCloud ∧ 100 < M.size st.lastSurfaceCloud then
        solveLoopTransform st.lastCornerCloud st.lastSurfaceCloud
          st.cornerPointsSharp st.surfPointsFlat t1
      else t1
    let cornerSharpNew := if 10 < M.size st.lastCornerCloud ∧ 100 < M.size st.lastSurfaceCloud then
        M.removeNaN st.cornerPointsSharp
      else st.cornerPointsSharp
    let lastCornerMid := if 10 < M.size st.lastCornerCloud ∧ 100 < M.size st.lastSurfaceCloud then
        M.solveLastCorner st.lastCornerCloud
      else st.lastCornerCloud
    ({ st with
        frameCount := st.frameCount + 1,
        transform := t2,
        transformSum := M.accumulate st.transformSum t2,
        cornerPointsSharp := cornerSharpNew,
        cornerPointsLessSharp := lastCornerMid,
        surfPointsLessFlat := st.lastSurfaceCloud,
        lastCornerCloud := M.transformToEnd t2 st.cornerPointsLessSharp,
        lastSurfaceCloud := M.transformToEnd t2 st.surfPointsLessFlat }, true)

/-- Eigenvalue threshold array, translated from LaserOdometry.cpp line 694:
all six entries are 10. -/
def eignThre : Fin 6 → ℚ := fun _ => 10

/-- Zeroing of one row of a 6 by 6 matrix, translated from the inner loop of
LaserOdometry.cpp lines 697-699. -/
def zeroRow (M : Matrix (Fin 6) (Fin 6) ℚ) (i : Fin 6) : Matrix (Fin 6) (Fin 6) ℚ :=
  Matrix.of fun r c => if r = i then 0 else M r c

/-- The eigenvector-zeroing loop of the degeneracy analysis, translated from
LaserOdometry.cpp lines 693-704: the index list is visited in order; while
the eigenvalue at the current index is below the threshold the corresponding
row of the working matrix is zeroed and the degeneracy flag set, and the
first index whose eigenvalue reaches the threshold stops the loop. -/
def degenLoop (matE : Fin 6 → ℚ) :
    List (Fin 6) → Matrix (Fin 6) (Fin 6) ℚ → Bool → Matrix (Fin 6) (Fin 6) ℚ × Bool
  | [], matV2, isDeg => (matV2, isDeg)
  | i :: rest, matV2, isDeg =>
    if matE i < eignThre i then degenLoop matE rest (zeroRow matV2 i) true
    else (matV2, isDeg)

/-- Inverse of a 6 by 6 rational matrix by the adjugate formula, modelling
the call to the Eigen inverse in LaserOdometry.cpp line 705 (for an
invertible argument this is the usual inverse). -/
def inv6 (A : Matrix (Fin 6) (Fin 6) ℚ) : Matrix (Fin 6) (Fin 6) ℚ :=
  A.det⁻¹ • A.adjugate

/-- Degeneracy analysis run at solver iteration 0, translated from
LaserOdometry.cpp lines 682-706. Its inputs are the outputs of the Eigen
self-adjoint eigensolver on the normal matrix: matE holds the six
eigenvalues, which that solver returns sorted in increasing order, and matV
the eigenvector matrix. The working copy matV2 starts equal to matV, the
row-zeroing loop of lines 695-704 runs over the indices 5 down to 0, and
the projector is the inverse of matV times the final matV2 (line 705).
The result pairs the projector with the degeneracy flag. -/
def degeneracyAnalysis (matE : Fin 6 → ℚ) (matV : Matrix (Fin 6) (Fin 6) ℚ) :
    Matrix (Fin 6) (Fin 6) ℚ × Bool :=
  let r := degenLoop matE ([5, 4, 3, 2, 1, 0] : List (Fin 6)) matV false
  (inv6 matV * r.1, r.2)

/-- Point with one scalar channel, modelling pcl PointXYZI over the reals:
the integer part of the channel is the scan ring and the fractional part
the relative timestamp within the sweep. -/
structure PointR where
  x : ℝ
  y : ℝ
  z : ℝ
  intensity : ℝ

/-- Pose over the reals for the point re-projection functions. -/
structure TwistR where
  rot_x : ℝ
  rot_y : ℝ
  rot_z : ℝ
  posx : ℝ
  posy : ℝ
  posz : ℝ

/-- Rotation of a point about the Z axis by an angle in radians. -/
noncomputable def rotZ (p : PointR) (a : ℝ) : PointR :=
  ⟨Real.cos a * p.x - Real.sin a * p.y, Real.sin a * p.x + Real.cos a * p.y, p.z, p.intensity⟩

/-- Rotation of a point about the X axis by an angle in radians. -/
noncomputable def rotX (p : PointR) (a : ℝ) : PointR :=
  ⟨p.x, Real.cos a * p.y - Real.sin a * p.z, Real.sin a * p.y + Real.cos a * p.z, p.intensity⟩

/-- Rotation of a point about the Y axis by an angle in radians. -/
noncomputable def rotY (p : PointR) (a : ℝ) : PointR :=
  ⟨Real.cos a * p.x + Real.sin a * p.z, p.y, -Real.sin a * p.x + Real.cos a * p.z, p.intensity⟩

/-- Modelled from the spec: rotateZXY of math_utils.h, which is not under
src/, applies intrinsic rotations in the order Z, then X, then Y. -/
noncomputable def rotateZXY (p : PointR) (az ax ay : ℝ) : PointR :=
  rotY (rotX (rotZ p az) ax) ay

/-- Re-projection of one point to the start-of-sweep frame, translated from
LaserOdometry::transformToStart (lines 83-97): the relative timestamp s is
ten times the fractional part of the channel (the integer cast of the
source truncates, which on the nonnegative channel values of this encoding
is the floor), the interpolated translation is subtracted, and the inverse
interpolated rotation is applied through rotateZXY with the negated scaled
angles in the argument order z, x, y of the call at line 96. The channel
value is preserved. -/
noncomputable def transformToStart (tr : TwistR) (pin : PointR) : PointR :=
  let s : ℝ := 10 * (pin.intensity - (⌊pin.intensity⌋ : ℝ))
  let po : PointR := ⟨pin.x - s * tr.posx, pin.y - s * tr.posy, pin.z - s * tr.posz,
    pin.intensity⟩
  rotateZXY po (-(s * tr.rot_z)) (-(s * tr.rot_x)) (-(s * tr.rot_y))

/-- Value of a default-constructed pcl PointXYZI: all coordinates and the
channel are zero-initialized. -/
noncomputable def defaultPointXYZI : PointR := ⟨0, 0, 0, 0⟩

/-- The 3D position the corner path of the solver hands to the
nearest-neighbor search and to the point-to-line residual for a sharp query
point, translated from LaserOdometry.cpp lines 341-350 and 396-398: the
local pointSel is declared default-constructed at line 341, the call to
transformToStart at line 346 is commented out and pointSel is never
assigned, so the position used at lines 350 (nearestKSearch) and 396-398
(residual) is the default point, whatever the query point and the current
incremental transform are. -/
noncomputable def cornerSearchQuery (_tr : TwistR) (_q : PointR) : PointR :=
  defaultPointXYZI

/-- The 3D position the surface path of the solver hands to the
nearest-neighbor search and to the point-to-plane residual for a flat query
point, translated from LaserOdometry.cpp lines 449-453 and 524: the call to
transformToStart at line 450 is commented out and the same unassigned
pointSel is used. -/
noncomputable def surfSearchQuery (_tr : TwistR) (_q : PointR) : PointR :=
  defaultPointXYZI

/-- Point with one scalar channel over the rationals, for the linear
correspondence scan. -/
structure PtQ where
  x : ℚ
  y : ℚ
  z : ℚ
  intensity : ℚ
deriving DecidableEq

/-- Modelled from the spec: calcSquaredDiff of math_utils.h, which is not
under src/, is the squared Euclidean distance of two points. -/
def calcSquaredDiff (a b : PtQ) : ℚ :=
  (a.x - b.x) ^ 2 + (a.y - b.y) ^ 2 + (a.z - b.z) ^ 2

/-- Scan ring of a point, decoded as the integer part of the channel
(the integer casts of the source truncate, which on the nonnegative
channel values of this encoding is the floor). -/
def ringOf (p : PtQ) : ℤ := ⌊p.intensity⌋

/-- Body of the forward second-pass corner scan, translated from
LaserOdometry.cpp lines 358-371. The scan walks the previous corner cloud
upward from index j while j is below the bound (the loop condition at line
358); each visited index is read from the previous cloud, and reading an
index at or past the length of that cloud is the out-of-bounds outcome,
reported as an error carrying the offending index. A visited point whose
ring exceeds the closest-point ring by more than 2.5 stops the scan (line
359); otherwise the squared distance to the query position is taken (line
363) and, when the ring is strictly above the closest-point ring and the
distance beats the current minimum, the candidate is recorded (lines
365-369). The remaining iteration count drives the recursion: it starts at
bound minus the start index, so the recursion stops exactly when j reaches
the bound. -/
def cornerFwdScanAux (prev : List PtQ) (closestPointScan : ℤ) (sel : PtQ) :
    ℕ → ℕ → ℚ → ℤ → Except ℕ (ℚ × ℤ)
  | 0, _, minPointSqDis2, minPointInd2 => Except.ok (minPointSqDis2, minPointInd2)
  | Nat.succ fuel, j, minPointSqDis2, minPointInd2 =>
    match prev.get? j with
    | none => Except.error j
    | some pj =>
      if ((ringOf pj : ℚ)) > (closestPointScan : ℚ) + 5 / 2 then
        Except.ok (minPointSqDis2, minPointInd2)
      else
        let pointSqDis := calcSquaredDiff pj sel
        if closestPointScan < ringOf pj then
          if pointSqDis < minPointSqDis2 then
            cornerFwdScanAux prev closestPointScan sel fuel (j + 1) pointSqDis (j : ℤ)
          else
            cornerFwdScanAux prev closestPointScan sel fuel (j + 1) minPointSqDis2 minPointInd2
        else
          cornerFwdScanAux prev closestPointScan sel fuel (j + 1) minPointSqDis2 minPointInd2

/-- Forward second-pass corner scan, translated from LaserOdometry.cpp
lines 357-371: starting one past the array position of the closest
neighbor, with the minimum squared distance initialized to 25 and the
second index to -1, the loop runs while j is below cornerPointsSharpNum,
the size of the current sharp cloud (line 358), even though every read at
index j is from the previous corner cloud. The surface path of lines
459-478 bounds its scan of the previous surface cloud by the current flat
cloud size in the same way. -/
def cornerForwardScan (prev : List PtQ) (cornerPointsSharpNum : ℕ)
    (closestPointInd : ℕ) (closestPointScan : ℤ) (sel : PtQ) : Except ℕ (ℚ × ℤ) :=
  cornerFwdScanAux prev closestPointScan sel
    (cornerPointsSharpNum - (closestPointInd + 1)) (closestPointInd + 1) 25 (-1)

/-- Token written to the trajectory file: a numeric value, a single space,
or a newline. The numeric formatting of the stream output is not modelled;
a token carries the exact rational value written. -/
inductive Tok where
  | num : ℚ → Tok
  | sp : Tok
  | nl : Tok
deriving DecidableEq

/-- One stream output operation: appends one token to the file contents. -/
def put (file : List Tok) (t : Tok) : List Tok := file ++ [t]

/-- Pose logging utility, translated from savePoseToFile in common.h lines
53-61: the file is opened in append mode and the twelve values are written
by the chain of stream outputs of lines 57-59, row by row, each row being
the three rotation entries of that row followed by the translation entry of
that row, with a space after each value except the last, which is followed
by a newline. -/
def savePoseToFile (rot : Matrix (Fin 3) (Fin 3) ℚ) (trans : Fin 3 → ℚ)
    (file : List Tok) : List Tok :=
  let f := put file (Tok.num (rot 0 0))
  let f := put f Tok.sp
  let f := put f (Tok.num (rot 0 1))
  let f := put f Tok.sp
  let f := put f (Tok.num (rot 0 2))
  let f := put f Tok.sp
  let f := put f (Tok.num (trans 0))
  let f := put f Tok.sp
  let f := put f (Tok.num (rot 1 0))
  let f := put f Tok.sp
  let f := put f (Tok.num (rot 1 1))
  let f := put f Tok.sp
  let f := put f (Tok.num (rot 1 2))
  let f := put f Tok.sp
  let f := put f (Tok.num (trans 1))
  let f := put f Tok.sp
  let f := put f (Tok.num (rot 2 0))
  let f := put f Tok.sp
  let f := put f (Tok.num (rot 2 1))
  let f := put f Tok.sp
  let f := put f (Tok.num (rot 2 2))
  let f := put f Tok.sp
  let f := put f (Tok.num (trans 2))
  put f Tok.nl

/-- The token sequence one call to savePoseToFile appends: the 3 by 4
row-major pose, space-separated, newline-terminated. -/
def poseLineTokens (rot : Matrix (Fin 3) (Fin 3) ℚ) (trans : Fin 3 → ℚ) : List Tok :=
  [Tok.num (rot 0 0), Tok.sp, Tok.num (rot 0 1), Tok.sp, Tok.num (rot 0 2), Tok.sp,
   Tok.num (trans 0), Tok.sp,
   Tok.num (rot 1 0), Tok.sp, Tok.num (rot 1 1), Tok.sp, Tok.num (rot 1 2), Tok.sp,
   Tok.num (trans 1), Tok.sp,
   Tok.num (rot 2 0), Tok.sp, Tok.num (rot 2 1), Tok.sp, Tok.num (rot 2 2), Tok.sp,
   Tok.num (trans 2), Tok.nl]

/-- The token sequence the specification sentence asserts for one line:
the nine rotation entries first, then the three translation entries,
space-separated, newline-terminated. -/
def claimedPoseLine (rot : Matrix (Fin 3) (Fin 3) ℚ) (trans : Fin 3 → ℚ) : List Tok :=
  [Tok.num (rot 0 0), Tok.sp, Tok.num (rot 0 1), Tok.sp, Tok.num (rot 0 2), Tok.sp,
   Tok.num (rot 1 0), Tok.sp, Tok.num (rot 1 1), Tok.sp, Tok.num (rot 1 2), Tok.sp,
   Tok.num (rot 2 0), Tok.sp, Tok.num (rot 2 1), Tok.sp, Tok.num (rot 2 2), Tok.sp,
   Tok.num (trans 0), Tok.sp, Tok.num (trans 1), Tok.sp, Tok.num (trans 2), Tok.nl]

/-- Registered-cloud export, translated from
LaserOdometry::generateRegisteredCloud (lines 796-807): when the
decimation ratio is below 2 or the frame count is 1 modulo the ratio, the
full-resolution member cloud is re-projected to sweep end in place and the
helper returns true; otherwise nothing happens and it returns false. -/
def generateRegisteredCloud (M : CoreModel C) (params : LaserOdometryParams)
    (st : OdomState C) : OdomState C × Bool :=
  if params.ioRatioN < 2 ∨ st.frameCount % params.ioRatioN = 1 then
    ({ st with laserCloudFullRes := M.transformToEnd st.transform st.laserCloudFullRes }, true)
  else
    (st, false)

/-- Concrete cloud model over natural-number cloud identifiers, for running
the tick skeleton on explicit inputs: every cloud reports size 0, the
library filters are the identity, the pose accumulation keeps the running
pose, and re-projection keeps the cloud. -/
def natModel : CoreModel ℕ :=
  ⟨fun _ => 0, id, id, fun a _ => a, fun _ c => c⟩

/-- Concrete cloud model identical to natModel except that every cloud
reports size 1000, so the solver section is entered. -/
def bigModel : CoreModel ℕ :=
  ⟨fun _ => 1000, id, id, fun a _ => a, fun _ c => c⟩

/-- Solver-loop model that keeps the entry transform unchanged. -/
def solve0 : ℕ → ℕ → ℕ → ℕ → TwistQ → TwistQ := fun _ _ _ _ t => t

/-- Solver-loop model that discards the entry transform. -/
def solveAlt : ℕ → ℕ → ℕ → ℕ → TwistQ → TwistQ := fun _ _ _ _ _ => zeroTwist

/-- Concrete configuration: scan period one second, decimation ratio 3. -/
def params0 : LaserOdometryParams := ⟨1, 3⟩

/-- State of the core at the first gated tick: all six fresh-data flags
set, all timestamps equal, the system not yet initialized, both transforms
zero, distinct identifiers for the five input clouds, empty previous-sweep
slots, and concrete IMU hints (pitch one half, roll one quarter, unit
velocity delta along x). -/
def coldState : OdomState ℕ :=
  ⟨true, true, true, true, true, true,
   0, 0, 0, 0, 0, 0,
   false, 0, zeroTwist, zeroTwist,
   1, 2, 3, 4, 5,
   0, 0, 0, 0,
   1 / 2, 1 / 4, ⟨1, 0, 0⟩⟩

/-- Host action between ticks: installs fresh data by setting the six
fresh-data flags again (the stream timestamps stay equal). -/
def rearm (st : OdomState ℕ) : OdomState ℕ :=
  { st with
      newCornerPointsSharp := true,
      newCornerPointsLessSharp := true,
      newSurfPointsFlat := true,
      newSurfPointsLessFlat := true,
      newLaserCloudFullRes := true,
      newImuTrans := true }

/-- State after the initialization tick on coldState. -/
def tick1State : OdomState ℕ := (processModel natModel solve0 params0 coldState).1

/-- State at entry of the second tick: the initialization tick happened and
the host installed fresh data. -/
def warmState : OdomState ℕ := rearm tick1State

/-- State after the second tick (the first non-initialization tick). -/
def tick2State : OdomState ℕ := (processModel natModel solve0 params0 warmState).1

/-- State at entry of the third tick: fresh data installed and the IMU
velocity delta now zero, so the IMU translation prior of that tick is the
zero vector while the incremental transform still carries the previous
translation. -/
def tick3Entry : OdomState ℕ :=
  { rearm tick2State with imuVeloFromStart := zeroVec }

/-- The incremental transform value the specification asserts at the start
of a non-initialization tick: zero rotation and minus the IMU velocity
delta times the scan period as translation. -/
def imuPriorTwist (v : Vec3) (scanPeriod : ℚ) : TwistQ :=
  ⟨0, 0, 0, subVec zeroVec (scaleVec scanPeriod v)⟩

/-- State at entry of the second tick with the second sweep carrying new
less-sharp and less-flat clouds (identifiers 12 and 14). -/
def tick2EntryC4 : OdomState ℕ :=
  { warmState with cornerPointsLessSharp := 12, surfPointsLessFlat := 14 }

/-- Result of the second tick on tick2EntryC4. -/
def tick2C4 : OdomState ℕ × Bool := processModel natModel solve0 params0 tick2EntryC4

/-- Eigenvalues of the failing degeneracy input, in the increasing order
the Eigen self-adjoint solver returns them: one eigenvalue below the
threshold 10 and five above it. -/
def eC1 : Fin 6 → ℚ := ![5, 20, 20, 20, 20, 20]

/-- Eigenvector of the failing degeneracy input associated with the
eigenvalue 5: the first column of the identity eigenvector matrix. -/
def vC1 : Fin 6 → ℚ := ![1, 0, 0, 0, 0, 0]

/-- Incremental transform of the failing de-skew input: translation one
meter along x, zero rotation. -/
noncomputable def trC2 : TwistR := ⟨0, 0, 0, 1, 0, 0⟩

/-- Sharp query point of the failing de-skew input: position one, two,
three, ring 0, relative timestamp one half. -/
noncomputable def qC2 : PointR := ⟨1, 2, 3, 1 / 20⟩

/-- Previous corner cloud of the failing scan input: eleven points at the
origin on ring 0, so the cloud passes the more-than-ten-points gate. -/
def prevC7 : List PtQ := List.replicate 11 ⟨0, 0, 0, 0⟩

/-- Rotation matrix of the failing pose-line input, with twelve pairwise
distinct entries across rotation and translation. -/
def rotC10 : Matrix (Fin 3) (Fin 3) ℚ := !![0, 1, 2; 3, 4, 5; 6, 7, 8]

/-- Translation vector of the failing pose-line input. -/
def transC10 : Fin 3 → ℚ := ![100, 101, 102]

/-- State with frame count 1, for the decimation witness. -/
def frame1State : OdomState ℕ := { coldState with frameCount := 1 }

/-- Explicit value of the state after the initialization tick on coldState:
flags cleared, system initialized, the previous-sweep slots and both
KD-tree inputs holding the first less-sharp and less-flat clouds (2 and 4),
the input less-sharp and less-flat slots holding the swapped-out empty
previous clouds, and the accumulated rotation biased by the IMU pitch and
roll at sweep start. -/
def tick1Lit : OdomState ℕ :=
  ⟨false, false, false, false, false, false,
   0, 0, 0, 0, 0, 0,
   true, 0, zeroTwist, ⟨1 / 2, 0, 1 / 4, zeroVec⟩,
   1, 0, 3, 0, 5,
   2, 4, 2, 4,
   1 / 2, 1 / 4, ⟨1, 0, 0⟩⟩

/-- Explicit value of the state after the second tick on warmState: the
frame counter is 1, the incremental transform carries the IMU translation
prior minus one meter along x, the clouds swapped once more, and the
KD-tree inputs still those of the initialization tick. -/
def tick2Lit : OdomState ℕ :=
  ⟨false, false, false, false, false, false,
   0, 0, 0, 0, 0, 0,
   true, 1, ⟨0, 0, 0, ⟨-1, 0, 0⟩⟩, ⟨1 / 2, 0, 1 / 4, zeroVec⟩,
   1, 2, 3, 4, 5,
   0, 0, 2, 4,
   1 / 2, 1 / 4, ⟨1, 0, 0⟩⟩

/-- A tick whose gate fails returns no work and leaves the state unchanged
(LaserOdometry.cpp lines 289-292). -/
theorem processModel_not_ready (M : CoreModel C)
    (solve : C → C → C → C → TwistQ → TwistQ) (p : LaserOdometryParams)
    (st : OdomState C) (h : hasNewData st = false) :
    processModel M solve p st = (st, false) := by
  simp [processModel, h]

/-- Evaluation of the initialization branch of the tick (LaserOdometry.cpp
lines 299-311) as one structure update. -/
theorem processModel_initTick (M : CoreModel C)
    (solve : C → C → C → C → TwistQ → TwistQ) (p : LaserOdometryParams)
    (st : OdomState C) (h1 : hasNewData st = true) (h2 : st.systemInited = false) :
    processModel M solve p st =
      ({ st with
          newCornerPointsSharp := false,
          newCornerPointsLessSharp := false,
          newSurfPointsFlat := false,
          newSurfPointsLessFlat := false,
          newLaserCloudFullRes := false,
          newImuTrans := false,
          cornerPointsLessSharp := st.lastCornerCloud,
          lastCornerCloud := st.cornerPointsLessSharp,
          surfPointsLessFlat := st.lastSurfaceCloud,
          lastSurfaceCloud := st.surfPointsLessFlat,
          lastCornerKDTreeCloud := st.cornerPointsLessSharp,
          lastSurfaceKDTreeCloud := st.surfPointsLessFlat,
          transformSum := { st.transformSum with
            rot_x := st.transformSum.rot_x + st.imuPitchStart,
            rot_z := st.transformSum.rot_z + st.imuRollStart },
          systemInited := true }, false) := by
  simp [processModel, h1, reset, h2]

/-- Evaluation of a non-initialization tick whose previous-sweep clouds are
too small for the solver section (LaserOdometry.cpp lines 287-794 with the
condition of line 325 false) as one structure update: the solver loop is
not entered, so the incremental transform carries only the IMU prior. -/
theorem processModel_runTick_small (M : CoreModel C)
    (solve : C → C → C → C → TwistQ → TwistQ) (p : LaserOdometryParams)
    (st : OdomState C) (h1 : hasNewData st = true) (h2 : st.systemInited = true)
    (h3 : ¬(10 < M.size st.lastCornerCloud ∧ 100 < M.size st.lastSurfaceCloud)) :
    processModel M solve p st =
      ({ st with
          newCornerPointsSharp := false,
          newCornerPointsLessSharp := false,
          newSurfPointsFlat := false,
          newSurfPointsLessFlat := false,
          newLaserCloudFullRes := false,
          newImuTrans := false,
          frameCount := st.frameCount + 1,
          transform := solverEntryTransform st.transform st.imuVeloFromStart p.scanPeriod,
          transformSum := M.accumulate st.transformSum
            (solverEntryTransform st.transform st.imuVeloFromStart p.scanPeriod),
          cornerPointsLessSharp := st.lastCornerCloud,
          surfPointsLessFlat := st.lastSurfaceCloud,
          lastCornerCloud := M.transformToEnd
            (solverEntryTransform st.transform st.imuVeloFromStart p.scanPeriod)
            st.cornerPointsLessSharp,
          lastSurfaceCloud := M.transformToEnd
            (solverEntryTransform st.transform st.imuVeloFromStart p.scanPeriod)
            st.surfPointsLessFlat }, true) := by
  simp [processModel, h1, reset, h2, h3]

/-- The first gated tick state passes the input gate. -/
theorem gate_coldState : hasNewData coldState = true := by
  norm_num [hasNewData, coldState]

/-- Evaluation of the initialization tick on coldState. -/
theorem tick1State_eval : tick1State = tick1Lit := by
  rw [tick1State, processModel_initTick natModel solve0 params0 coldState gate_coldState rfl]
  norm_num [coldState, tick1Lit, zeroTwist, zeroVec]

/-- The re-armed state after the initialization tick passes the gate. -/
theorem gate_warmState : hasNewData warmState = true := by
  rw [warmState, tick1State_eval]
  norm_num [hasNewData, rearm, tick1Lit]

/-- Evaluation of the first non-initialization tick on warmState. -/
theorem tick2State_eval : tick2State = tick2Lit := by
  rw [tick2State,
    processModel_runTick_small natModel solve0 params0 warmState gate_warmState
      (by rw [warmState, tick1State_eval]; rfl) (by simp [natModel])]
  rw [warmState, tick1State_eval]
  norm_num [rearm, tick1Lit, tick2Lit, natModel, params0, solverEntryTransform, subVec,
    scaleVec, zeroVec, zeroTwist]

/-- Claim C1. The claim states that the degeneracy analysis examines the
eigenvalues in ascending order, zeroes every eigenvector whose eigenvalue
is below 10, stops at the first eigenvalue at or above 10, and that the
projector P therefore maps every eigenvector with eigenvalue at or above 10
to itself and every eigenvector with eigenvalue below 10 to zero. This
theorem evaluates the embedded code at the failing input: eigenvalues
5, 20, 20, 20, 20, 20 in the increasing index order the Eigen solver
guarantees, eigenvector matrix the identity. The source loop walks the
indices from 5 down to 0, so it starts at the largest eigenvalue 20,
breaks immediately, zeroes nothing, and leaves the degeneracy flag false;
the projector is the identity and maps the nonzero eigenvector of the
eigenvalue 5, which is below 10, to itself instead of to zero. -/
theorem C1_degeneracy_projector_bug :
    eC1 0 < 10 ∧ vC1 ≠ 0 ∧
    (degeneracyAnalysis eC1 (1 : Matrix (Fin 6) (Fin 6) ℚ)).1.mulVec vC1 = vC1 ∧
    (degeneracyAnalysis eC1 (1 : Matrix (Fin 6) (Fin 6) ℚ)).2 = false := by
  have hloop : degenLoop eC1 ([5, 4, 3, 2, 1, 0] : List (Fin 6))
      (1 : Matrix (Fin 6) (Fin 6) ℚ) false = ((1 : Matrix (Fin 6) (Fin 6) ℚ), false) := by
    decide
  have hinv : inv6 (1 : Matrix (Fin 6) (Fin 6) ℚ) = 1 := by
    simp [inv6, Matrix.det_one, Matrix.adjugate_one]
  have hP : degeneracyAnalysis eC1 (1 : Matrix (Fin 6) (Fin 6) ℚ)
      = ((1 : Matrix (Fin 6) (Fin 6) ℚ), false) := by
    simp [degeneracyAnalysis, hloop, hinv]
  refine ⟨by decide, by decide, ?_, ?_⟩
  · rw [hP]
    exact Matrix.one_mulVec vC1
  · rw [hP]

/-- Claim C4. The claim states that at the end of every successful
non-initialization tick, after the de-skewed less-sharp and less-flat
clouds are swapped into the previous-sweep slots, the two KD-tree indices
are rebuilt over the new previous-sweep clouds. This theorem evaluates the
embedded tick at the failing input: after the initialization tick on
coldState (whose less-sharp cloud is 2 and less-flat cloud is 4) and a
successful second tick carrying new clouds 12 and 14, the previous-sweep
slots hold the new clouds but both KD-tree input clouds still hold the
clouds of the initialization tick, because the rebuild calls at lines
788-791 of the source are commented out. -/
theorem C4_stale_kdtree_bug :
    tick2C4.2 = true ∧
    tick2C4.1.lastCornerCloud = 12 ∧
    tick2C4.1.lastSurfaceCloud = 14 ∧
    tick2C4.1.lastCornerKDTreeCloud = coldState.cornerPointsLessSharp ∧
    tick2C4.1.lastSurfaceKDTreeCloud = coldState.surfPointsLessFlat ∧
    tick2C4.1.lastCornerKDTreeCloud ≠ tick2C4.1.lastCornerCloud ∧
    tick2C4.1.lastSurfaceKDTreeCloud ≠ tick2C4.1.lastSurfaceCloud := by
  have hent : tick2EntryC4
      = { rearm tick1Lit with cornerPointsLessSharp := 12, surfPointsLessFlat := 14 } := by
    rw [tick2EntryC4, warmState, tick1State_eval]
  have hgate : hasNewData tick2EntryC4 = true := by
    rw [hent]
    norm_num [hasNewData, rearm, tick1Lit]
  have hrun := processModel_runTick_small natModel solve0 params0 tick2EntryC4 hgate
    (by rw [hent]; rfl) (by simp [natModel])
  rw [tick2C4, hrun, hent]
  norm_num [rearm, tick1Lit, natModel, coldState]

/-- Claim C7. The claim states that in the second-pass linear
correspondence scans every index used to read a candidate point is
strictly below the size of the previous-sweep cloud being scanned. This
theorem evaluates the embedded forward corner scan at the failing input:
the previous corner cloud has 11 points (all on ring 0), the current sharp
cloud has 20 points, and the closest neighbor sits at array position 10, so
the loop condition j below cornerPointsSharpNum admits j equal to 11 and
the first read of the scan is at index 11, one past the end of the
previous cloud. -/
theorem C7_out_of_bounds_scan :
    cornerForwardScan prevC7 20 10 0 ⟨0, 0, 0, 0⟩ = Except.error 11 ∧
    prevC7.length = 11 := by
  constructor
  · rfl
  · rfl

/-- Claim C2. The claim states that the 3D position handed to the
nearest-neighbor search and to the residual evaluation for every sharp and
every flat query point is that point re-projected to the
start-of-current-sweep frame by transformToStart. This theorem evaluates
the embedded code at the failing input: with the incremental transform at
translation one meter along x and zero rotation, and the sharp query point
at position one, two, three with channel one twentieth (relative
timestamp one half), transformToStart yields the position one half, two,
three, while both the corner path and the surface path hand the
default-constructed position zero, zero, zero to the search and the
residual, because the transformToStart calls at lines 346 and 450 are
commented out and pointSel is never assigned. -/
theorem C2_raw_query_bug :
    cornerSearchQuery trC2 qC2 = defaultPointXYZI ∧
    surfSearchQuery trC2 qC2 = defaultPointXYZI ∧
    transformToStart trC2 qC2 = ⟨1 / 2, 2, 3, 1 / 20⟩ ∧
    cornerSearchQuery trC2 qC2 ≠ transformToStart trC2 qC2 := by
  have hfloor : ⌊(1 / 20 : ℝ)⌋ = 0 := by
    rw [Int.floor_eq_zero_iff, Set.mem_Ico]
    constructor <;> norm_num
  have htts : transformToStart trC2 qC2 = ⟨1 / 2, 2, 3, 1 / 20⟩ := by
    simp only [transformToStart, rotateZXY, rotZ, rotX, rotY, trC2, qC2, hfloor]
    norm_num
  refine ⟨rfl, rfl, htts, ?_⟩
  rw [htts]
  intro hcon
  have hx := congrArg PointR.x hcon
  simp only [cornerSearchQuery, defaultPointXYZI] at hx
  norm_num at hx

/-- Claim C3, amended. The claim as stated asserts that the incremental
transform is reset at the start of every non-initialization tick to the
IMU prior (translation minus imuVeloFromStart times scanPeriod, zero
rotation). On the code the incremental transform carries over from the
previous tick as a warm start: line 318 only subtracts the IMU prior from
the carried-over translation and the rotation is left untouched. This
theorem proves the amended statement, observed through a tick whose solver
section is skipped so that the transform at the would-be solver entry is
the transform the tick commits. -/
theorem C3_warm_start (M : CoreModel C)
    (solve : C → C → C → C → TwistQ → TwistQ) (p : LaserOdometryParams)
    (st : OdomState C) (h1 : hasNewData st = true) (h2 : st.systemInited = true)
    (h3 : ¬(10 < M.size st.lastCornerCloud ∧ 100 < M.size st.lastSurfaceCloud)) :
    (processModel M solve p st).1.transform
      = solverEntryTransform st.transform st.imuVeloFromStart p.scanPeriod ∧
    (solverEntryTransform st.transform st.imuVeloFromStart p.scanPeriod).rot_x
      = st.transform.rot_x ∧
    (solverEntryTransform st.transform st.imuVeloFromStart p.scanPeriod).rot_y
      = st.transform.rot_y ∧
    (solverEntryTransform st.transform st.imuVeloFromStart p.scanPeriod).rot_z
      = st.transform.rot_z ∧
    (solverEntryTransform st.transform st.imuVeloFromStart p.scanPeriod).pos
      = subVec st.transform.pos (scaleVec p.scanPeriod st.imuVeloFromStart) := by
  rw [processModel_runTick_small M solve p st h1 h2 h3]
  exact ⟨rfl, rfl, rfl, rfl, rfl⟩

/-- Witness for claim C3: the amended statement instantiated at the first
non-initialization tick of the concrete run. -/
theorem C3_warm_start_witness :
    (processModel natModel solve0 params0 warmState).1.transform
      = solverEntryTransform warmState.transform warmState.imuVeloFromStart
        params0.scanPeriod ∧
    (solverEntryTransform warmState.transform warmState.imuVeloFromStart
      params0.scanPeriod).rot_x = warmState.transform.rot_x ∧
    (solverEntryTransform warmState.transform warmState.imuVeloFromStart
      params0.scanPeriod).rot_y = warmState.transform.rot_y ∧
    (solverEntryTransform warmState.transform warmState.imuVeloFromStart
      params0.scanPeriod).rot_z = warmState.transform.rot_z ∧
    (solverEntryTransform warmState.transform warmState.imuVeloFromStart
      params0.scanPeriod).pos
      = subVec warmState.transform.pos
          (scaleVec params0.scanPeriod warmState.imuVeloFromStart) :=
  C3_warm_start natModel solve0 params0 warmState gate_warmState
    (by rw [warmState, tick1State_eval]; rfl) (by simp [natModel])

/-- Counterexample to claim C3 as stated: at the third tick of the
concrete run the IMU velocity delta is zero, so the claimed reset value is
the zero transform, but the incremental transform committed by the tick
still carries the translation minus one meter along x left over from the
previous tick. -/
theorem C3_counterexample :
    (processModel natModel solve0 params0 tick3Entry).1.transform
      ≠ imuPriorTwist tick3Entry.imuVeloFromStart params0.scanPeriod := by
  have hent : tick3Entry = { rearm tick2Lit with imuVeloFromStart := zeroVec } := by
    rw [tick3Entry, tick2State_eval]
  have hgate : hasNewData tick3Entry = true := by
    rw [hent]
    norm_num [hasNewData, rearm, tick2Lit]
  rw [processModel_runTick_small natModel solve0 params0 tick3Entry hgate
    (by rw [hent]; rfl) (by simp [natModel]), hent]
  norm_num [rearm, tick2Lit, imuPriorTwist, solverEntryTransform, subVec, scaleVec,
    zeroVec, params0, TwistQ.mk.injEq, Vec3.mk.injEq]

/-- Claim C5. The claim states that process performs work exactly when all
six fresh-data flags are set and each of the other five latest timestamps
is within 0.005 seconds of the less-flat timestamp, that otherwise process
returns false without work, and that after a tick that passes the gate all
six fresh-data flags are false. The theorem states that a failed gate
returns false and leaves the state untouched, and that a passed gate
clears all six flags and changes the state. -/
theorem C5_input_gate (M : CoreModel C)
    (solve : C → C → C → C → TwistQ → TwistQ) (p : LaserOdometryParams)
    (st : OdomState C) :
    (hasNewData st = false → processModel M solve p st = (st, false)) ∧
    (hasNewData st = true →
      ((processModel M solve p st).1.newCornerPointsSharp = false ∧
       (processModel M solve p st).1.newCornerPointsLessSharp = false ∧
       (processModel M solve p st).1.newSurfPointsFlat = false ∧
       (processModel M solve p st).1.newSurfPointsLessFlat = false ∧
       (processModel M solve p st).1.newLaserCloudFullRes = false ∧
       (processModel M solve p st).1.newImuTrans = false) ∧
      (processModel M solve p st).1 ≠ st) := by
  refine ⟨fun h => by simp [processModel, h], fun h => ?_⟩
  have hflags : (processModel M solve p st).1.newCornerPointsSharp = false ∧
      (processModel M solve p st).1.newCornerPointsLessSharp = false ∧
      (processModel M solve p st).1.newSurfPointsFlat = false ∧
      (processModel M solve p st).1.newSurfPointsLessFlat = false ∧
      (processModel M solve p st).1.newLaserCloudFullRes = false ∧
      (processModel M solve p st).1.newImuTrans = false := by
    unfold processModel
    rw [h]
    simp only [Bool.true_eq_false, if_false]
    split <;> simp [reset]
  have hfirst : st.newCornerPointsSharp = true := by
    simp only [hasNewData, Bool.and_eq_true] at h
    exact h.1.1.1.1.1.1.1.1.1.1
  refine ⟨hflags, fun heq => ?_⟩
  rw [heq] at hflags
  exact Bool.false_ne_true (hflags.1.symm.trans hfirst)

/-- Witness for claim C5: the gate theorem instantiated at the concrete
first gated state, whose gate holds. -/
theorem C5_input_gate_witness :
    ((processModel natModel solve0 params0 coldState).1.newCornerPointsSharp = false ∧
     (processModel natModel solve0 params0 coldState).1.newCornerPointsLessSharp = false ∧
     (processModel natModel solve0 params0 coldState).1.newSurfPointsFlat = false ∧
     (processModel natModel solve0 params0 coldState).1.newSurfPointsLessFlat = false ∧
     (processModel natModel solve0 params0 coldState).1.newLaserCloudFullRes = false ∧
     (processModel natModel solve0 params0 coldState).1.newImuTrans = false) ∧
    (processModel natModel solve0 params0 coldState).1 ≠ coldState :=
  (C5_input_gate natModel solve0 params0 coldState).2 gate_coldState

/-- Claim C6. The claim states that the first call to process with
complete gated data returns false, sets the system-initialized flag,
stores exactly the less-sharp and less-flat input clouds of the tick in
the previous-sweep slots, performs no solve, and leaves the accumulated
pose at rotation imuPitchStart, 0, imuRollStart with zero translation. -/
theorem C6_cold_start (M : CoreModel C)
    (solve : C → C → C → C → TwistQ → TwistQ) (p : LaserOdometryParams)
    (st : OdomState C) (h1 : hasNewData st = true) (h2 : st.systemInited = false)
    (h3 : st.transformSum = zeroTwist) :
    (processModel M solve p st).2 = false ∧
    (processModel M solve p st).1.systemInited = true ∧
    (processModel M solve p st).1.lastCornerCloud = st.cornerPointsLessSharp ∧
    (processModel M solve p st).1.lastSurfaceCloud = st.surfPointsLessFlat ∧
    (processModel M solve p st).1.transformSum
      = ⟨st.imuPitchStart, 0, st.imuRollStart, zeroVec⟩ := by
  rw [processModel_initTick M solve p st h1 h2]
  refine ⟨rfl, rfl, rfl, rfl, ?_⟩
  rw [h3]
  simp [zeroTwist]

/-- Witness for claim C6: the cold-start theorem instantiated at the
concrete first gated state. -/
theorem C6_cold_start_witness :
    (processModel natModel solve0 params0 coldState).2 = false ∧
    (processModel natModel solve0 params0 coldState).1.systemInited = true ∧
    (processModel natModel solve0 params0 coldState).1.lastCornerCloud
      = coldState.cornerPointsLessSharp ∧
    (processModel natModel solve0 params0 coldState).1.lastSurfaceCloud
      = coldState.surfPointsLessFlat ∧
    (processModel natModel solve0 params0 coldState).1.transformSum
      = ⟨coldState.imuPitchStart, 0, coldState.imuRollStart, zeroVec⟩ :=
  C6_cold_start natModel solve0 params0 coldState gate_coldState rfl rfl

/-- Claim C8. The claim states that on a non-initialization tick whose
previous corner cloud has at most 10 points or whose previous surface
cloud has at most 100 points, the solver loop is skipped entirely while
process still returns true and still advances the state: the frame counter
is incremented, the incremental transform carries exactly the IMU prior
update, the pose accumulation runs, and the de-skewed current less-sharp
and less-flat clouds are swapped into the previous-sweep slots. The
solver-independence is stated as equality of the tick for two arbitrary
solver loops. -/
theorem C8_no_solve_still_advances (M : CoreModel C)
    (solve1 solve2 : C → C → C → C → TwistQ → TwistQ) (p : LaserOdometryParams)
    (st : OdomState C) (h1 : hasNewData st = true) (h2 : st.systemInited = true)
    (h3 : M.size st.lastCornerCloud ≤ 10 ∨ M.size st.lastSurfaceCloud ≤ 100) :
    processModel M solve1 p st = processModel M solve2 p st ∧
    (processModel M solve1 p st).2 = true ∧
    (processModel M solve1 p st).1.frameCount = st.frameCount + 1 ∧
    (processModel M solve1 p st).1.transform
      = solverEntryTransform st.transform st.imuVeloFromStart p.scanPeriod ∧
    (processModel M solve1 p st).1.transformSum
      = M.accumulate st.transformSum
          (solverEntryTransform st.transform st.imuVeloFromStart p.scanPeriod) ∧
    (processModel M solve1 p st).1.lastCornerCloud
      = M.transformToEnd
          (solverEntryTransform st.transform st.imuVeloFromStart p.scanPeriod)
          st.cornerPointsLessSharp ∧
    (processModel M solve1 p st).1.lastSurfaceCloud
      = M.transformToEnd
          (solverEntryTransform st.transform st.imuVeloFromStart p.scanPeriod)
          st.surfPointsLessFlat := by
  have h3n : ¬(10 < M.size st.lastCornerCloud ∧ 100 < M.size st.lastSurfaceCloud) := by
    rcases h3 with h | h
    · exact fun hc => absurd hc.1 (Nat.not_lt.mpr h)
    · exact fun hc => absurd hc.2 (Nat.not_lt.mpr h)
  rw [processModel_runTick_small M solve1 p st h1 h2 h3n,
    processModel_runTick_small M solve2 p st h1 h2 h3n]
  exact ⟨rfl, rfl, rfl, rfl, rfl, rfl, rfl⟩

/-- Witness for claim C8: the theorem instantiated at the concrete second
tick, whose previous clouds report size 0, with two different solver
loops. -/
theorem C8_no_solve_still_advances_witness :
    processModel natModel solve0 params0 warmState
      = processModel natModel solveAlt params0 warmState ∧
    (processModel natModel solve0 params0 warmState).2 = true ∧
    (processModel natModel solve0 params0 warmState).1.frameCount
      = warmState.frameCount + 1 ∧
    (processModel natModel solve0 params0 warmState).1.transform
      = solverEntryTransform warmState.transform warmState.imuVeloFromStart
          params0.scanPeriod ∧
    (processModel natModel solve0 params0 warmState).1.transformSum
      = natModel.accumulate warmState.transformSum
          (solverEntryTransform warmState.transform warmState.imuVeloFromStart
            params0.scanPeriod) ∧
    (processModel natModel solve0 params0 warmState).1.lastCornerCloud
      = natModel.transformToEnd
          (solverEntryTransform warmState.transform warmState.imuVeloFromStart
            params0.scanPeriod)
          warmState.cornerPointsLessSharp ∧
    (processModel natModel solve0 params0 warmState).1.lastSurfaceCloud
      = natModel.transformToEnd
          (solverEntryTransform warmState.transform warmState.imuVeloFromStart
            params0.scanPeriod)
          warmState.surfPointsLessFlat :=
  C8_no_solve_still_advances natModel solve0 solveAlt params0 warmState gate_warmState
    (by rw [warmState, tick1State_eval]; rfl) (Or.inl (by simp [natModel]))

/-- Claim C9. The claim states that generateRegisteredCloud returns true
and yields the full-resolution cloud de-skewed to sweep end exactly on
ticks where the decimation ratio is below 2 or the frame count is 1 modulo
the ratio, returns false on every other tick, and that with ratio 3 it
returns true precisely at the frame counts congruent to 1 modulo 3. -/
theorem C9_decimation (M : CoreModel C) (p : LaserOdometryParams) (st : OdomState C) :
    ((generateRegisteredCloud M p st).2 = true
      ↔ (p.ioRatioN < 2 ∨ st.frameCount % p.ioRatioN = 1)) ∧
    ((generateRegisteredCloud M p st).2 = true →
      (generateRegisteredCloud M p st).1.laserCloudFullRes
        = M.transformToEnd st.transform st.laserCloudFullRes) ∧
    ((generateRegisteredCloud M p st).2 = false →
      generateRegisteredCloud M p st = (st, false)) ∧
    (p.ioRatioN = 3 →
      ((generateRegisteredCloud M p st).2 = true ↔ st.frameCount % 3 = 1)) := by
  by_cases hc : p.ioRatioN < 2 ∨ st.frameCount % p.ioRatioN = 1
  · refine ⟨by simp [generateRegisteredCloud, hc], by simp [generateRegisteredCloud, hc],
      by simp [generateRegisteredCloud, hc], fun h3 => ?_⟩
    have hmod : st.frameCount % 3 = 1 := by
      rcases hc with h | h
      · rw [h3] at h
        omega
      · rw [h3] at h
        exact h
    simp [generateRegisteredCloud, hc, hmod]
  · have hmod : ¬ st.frameCount % p.ioRatioN = 1 := fun hm => hc (Or.inr hm)
    refine ⟨by simp [generateRegisteredCloud, hc], by simp [generateRegisteredCloud, hc],
      by simp [generateRegisteredCloud, hc], fun h3 => ?_⟩
    rw [h3] at hmod
    simp [generateRegisteredCloud, hc, hmod]

/-- Witness for claim C9: at frame count 1 and ratio 3, the helper returns
true. -/
theorem C9_decimation_witness :
    (generateRegisteredCloud natModel params0 frame1State).2 = true :=
  ((C9_decimation natModel params0 frame1State).2.2.2 rfl).mpr rfl

/-- Claim C10, amended. The claim as stated asserts that the appended line
holds the nine rotation entries followed by the three translation entries.
The code writes the 3 by 4 row-major pose instead: each of the three rows
is that row of the rotation followed by the matching translation entry.
This theorem proves the amended statement: the utility appends to the
given file exactly the row-major token sequence, space-separated and
newline-terminated. -/
theorem C10_pose_line_format (rot : Matrix (Fin 3) (Fin 3) ℚ) (trans : Fin 3 → ℚ)
    (file : List Tok) :
    savePoseToFile rot trans file = file ++ poseLineTokens rot trans := by
  simp [savePoseToFile, put, poseLineTokens]

/-- Witness for claim C10: the amended statement instantiated at the
concrete pose and the empty file. -/
theorem C10_pose_line_format_witness :
    savePoseToFile rotC10 transC10 [] = [] ++ poseLineTokens rotC10 transC10 :=
  C10_pose_line_format rotC10 transC10 []

/-- Counterexample to claim C10 as stated: at a pose whose twelve entries
are pairwise distinct, the line the utility writes differs from the line
the claim asserts (the seventh token of the written line is the first
translation entry, not the fourth rotation entry). -/
theorem C10_counterexample :
    savePoseToFile rotC10 transC10 [] ≠ claimedPoseLine rotC10 transC10 := by
  decide

end LoamVis
